/-
Verification of the patch-application engine of `src/patcher.py`
(SynopsysCovdbPatch).

The engine `apply_patch` is a linear pipeline of validation gates over an
in-memory byte buffer:
  length-parity gate → file read → ASCII version-marker gate →
  already-patched gate → occurrence-count gate → substitution →
  no-effective-change check → persistence to `<path>.patched`.

Shallow embedding conventions:
  * bytes are `Nat` (values 0..255 in practice), byte strings `List Nat`;
  * a Python `str` is its list of Unicode code points (`List Nat`);
  * the filesystem is an association list from path to contents; a write
    prepends a binding, so earlier bindings shadow later ones;
  * Python's substring test `sub in data` is `List.IsInfix` (`<:+:`);
  * `bytes.count` (non-overlapping, left-to-right, greedy) is `countOcc`;
  * `bytes.replace(t, r, 1)` (leftmost occurrence) is `replaceFirst`;
  * `str.encode('ascii')` is `encodeAscii`, failing (raising
    `UnicodeEncodeError`) on any code point ≥ 128; an unhandled exception
    escaping `apply_patch` is modelled by the `Option` result being `none`.
-/
import Mathlib

set_option maxRecDepth 4000

/-- A byte string: Python `bytes`. -/
abbrev Bytes := List Nat

/-- One entry of `PATCH_CONFIG`: the dict with keys
`description` (a `str`, as its code points), `target` and `replacement`
(both `bytes`). -/
structure PatchInfo where
  description : List Nat
  target : Bytes
  replacement : Bytes
deriving DecidableEq, Repr

/-- Code points of a string literal, to transcribe the Python `str` fields. -/
def strCodes (s : String) : List Nat := s.data.map Char.toNat

/-- Python `str.encode('ascii')`: succeeds (with the identical code-point
sequence, as bytes) iff every code point is < 128, otherwise raises
`UnicodeEncodeError`, modelled as `none`. -/
def encodeAscii (s : List Nat) : Option Bytes :=
  if ∀ c ∈ s, c < 128 then some s else none

/-- Python `bytes.count(t :: ts)` restricted to a suffix of the buffer,
with the first `k` positions excluded from starting a match (used to skip
over the tail of a just-matched occurrence, making the count
non-overlapping and greedy left-to-right, exactly as CPython scans). -/
def countK (t : Nat) (ts : Bytes) : Nat → Bytes → Nat
  | _, [] => 0
  | 0, a :: rest =>
      if (t :: ts) <+: (a :: rest) then 1 + countK t ts ts.length rest
      else countK t ts 0 rest
  | k + 1, _ :: rest => countK t ts k rest

/-- Python `data.count(sub)`: for the empty pattern CPython returns
`len(data) + 1`; otherwise the greedy non-overlapping count. -/
def countOcc (sub data : Bytes) : Nat :=
  match sub with
  | [] => data.length + 1
  | t :: ts => countK t ts 0 data

/-- Replace the leftmost occurrence of `t :: ts` by `repl`; identity when
there is no occurrence (CPython `bytes.replace(sub, repl, 1)` for a
non-empty `sub`). -/
def replFirstGo (t : Nat) (ts repl : Bytes) : Bytes → Bytes
  | [] => []
  | a :: rest =>
      if (t :: ts) <+: (a :: rest) then repl ++ rest.drop ts.length
      else a :: replFirstGo t ts repl rest

/-- Python `data.replace(target, repl, 1)`: with an empty pattern CPython
inserts `repl` before the first position; otherwise leftmost-occurrence
replacement. -/
def replaceFirst (target repl data : Bytes) : Bytes :=
  match target with
  | [] => repl ++ data
  | t :: ts => replFirstGo t ts repl data

/-- The filesystem, as far as the engine sees it: a map from path to byte
contents, as an association list where the most recent write shadows. -/
abbrev FS := List (String × Bytes)

/-- Read a file's bytes; `none` models `FileNotFoundError` / `IOError`
(the two read failures `apply_patch` catches). -/
def FS.read (fs : FS) (p : String) : Option Bytes :=
  (fs.find? (fun e => e.1 == p)).map (fun e => e.2)

/-- `open(p, 'wb'); write(d)`: bind `p` to `d`, shadowing any old binding. -/
def FS.write (fs : FS) (p : String) (d : Bytes) : FS := (p, d) :: fs

/-- The distinct outcomes of one `apply_patch` run, one per exit point of
the Python function (the spec's error taxonomy, §7). The Python function
returns a `bool`; the branches are distinguished by the messages printed,
which this type records. -/
inductive ApplyOutcome where
  | invalidDescriptor
  | fileUnreadable
  | versionMismatch
  | alreadyPatched
  | patternNotFound
  | ambiguousMatch
  | noEffectiveChange
  | success (outputPath : String)
deriving DecidableEq, Repr

/-- `True` exactly on the branch that writes the output file. -/
def ApplyOutcome.isSuccess : ApplyOutcome → Bool
  | .success _ => true
  | _ => false

/-- `PATCH_CONFIG` from `src/patcher.py`, lines 20-71: the nine
hard-coded patch descriptors, transcribed byte for byte. -/
def PATCH_CONFIG : List PatchInfo := [
  { description := strCodes "U-2023.03-SP1",
    target := [0x41, 0x55, 0x41, 0x54, 0x55, 0x53, 0x48, 0x83, 0xec, 0x08,
               0x44, 0x8b, 0x25, 0x67, 0xec, 0xdf, 0x00],
    replacement := [0xb8, 0x01, 0x00, 0x00, 0x00, 0xc3, 0x48, 0x83, 0xec,
                    0x08, 0x44, 0x8b, 0x25, 0x67, 0xec, 0xdf, 0x00] },
  { description := strCodes "U-2023.03-SP2",
    target := [0x41, 0x55, 0x41, 0x54, 0x55, 0x53, 0x48, 0x83, 0xec, 0x08,
               0x44, 0x8b, 0x25, 0x57, 0x06, 0xe0, 0x00],
    replacement := [0xb8, 0x01, 0x00, 0x00, 0x00, 0xc3, 0x48, 0x83, 0xec,
                    0x08, 0x44, 0x8b, 0x25, 0x57, 0x06, 0xe0, 0x00] },
  { description := strCodes "U-2023.12-SP1",
    target := [0x41, 0x55, 0x41, 0x54, 0x55, 0x53, 0x48, 0x83, 0xec, 0x08,
               0x44, 0x8b, 0x25, 0x47, 0xd0, 0xee, 0x00],
    replacement := [0xb8, 0x01, 0x00, 0x00, 0x00, 0xc3, 0x48, 0x83, 0xec,
                    0x08, 0x44, 0x8b, 0x25, 0x47, 0xd0, 0xee, 0x00] },
  { description := strCodes "U-2023.12-SP2",
    target := [0x41, 0x55, 0x41, 0x54, 0x55, 0x53, 0x48, 0x83, 0xec, 0x08,
               0x44, 0x8b, 0x25, 0x07, 0x0c, 0xef, 0x00],
    replacement := [0xb8, 0x01, 0x00, 0x00, 0x00, 0xc3, 0x48, 0x83, 0xec,
                    0x08, 0x44, 0x8b, 0x25, 0x07, 0x0c, 0xef, 0x00] },
  { description := strCodes "W-2024.09",
    target := [0x55, 0x48, 0x89, 0xe5, 0x48, 0x81, 0xec, 0x80, 0x01, 0x00,
               0x00],
    replacement := [0x31, 0xc0, 0xc3, 0xe5, 0x48, 0x81, 0xec, 0x80, 0x01,
                    0x00, 0x00] },
  { description := strCodes "W-2024.09-SP1",
    target := [0x55, 0x48, 0x89, 0xe5, 0x48, 0x81, 0xec, 0x80, 0x01, 0x00,
               0x00],
    replacement := [0x31, 0xc0, 0xc3, 0xe5, 0x48, 0x81, 0xec, 0x80, 0x01,
                    0x00, 0x00] },
  { description := strCodes "W-2024.09-SP2",
    target := [0x55, 0x48, 0x89, 0xe5, 0x48, 0x81, 0xec, 0x80, 0x01, 0x00,
               0x00],
    replacement := [0x31, 0xc0, 0xc3, 0xe5, 0x48, 0x81, 0xec, 0x80, 0x01,
                    0x00, 0x00] },
  { description := strCodes "X-2025.06",
    target := [0x55, 0x48, 0x89, 0xe5, 0x48, 0x81, 0xec, 0x80, 0x01, 0x00,
               0x00],
    replacement := [0x31, 0xc0, 0xc3, 0xe5, 0x48, 0x81, 0xec, 0x80, 0x01,
                    0x00, 0x00] },
  { description := strCodes "X-2025.06-SP1",
    target := [0x55, 0x48, 0x89, 0xe5, 0x48, 0x81, 0xec, 0x80, 0x01, 0x00,
               0x00],
    replacement := [0x31, 0xc0, 0xc3, 0xe5, 0x48, 0x81, 0xec, 0x80, 0x01,
                    0x00, 0x00] }
]

/-- `apply_patch(file_path, patch_info)` from `src/patcher.py`, lines
108-183, as a function of the ambient filesystem. Returns the outcome and
the filesystem afterwards; `none` models an unhandled exception
(`UnicodeEncodeError` from `version_string.encode('ascii')`, the only
statement whose exceptions the function does not catch). Gate order is
the source's: length parity, read, version marker, already patched,
occurrence count, substitution, no-effective-change, write. -/
def apply_patch (fs : FS) (file_path : String) (patch_info : PatchInfo) :
    Option (ApplyOutcome × FS) :=
  if patch_info.target.length = patch_info.replacement.length then
    match FS.read fs file_path with
    | none => some (.fileUnreadable, fs)
    | some original_data =>
      match encodeAscii patch_info.description with
      | none => none
      | some version_bytes =>
        if version_bytes <:+: original_data then
          if patch_info.replacement <:+: original_data then
            some (.alreadyPatched, fs)
          else
            if countOcc patch_info.target original_data = 0 then
              some (.patternNotFound, fs)
            else
              if countOcc patch_info.target original_data > 1 then
                some (.ambiguousMatch, fs)
              else
                if replaceFirst patch_info.target patch_info.replacement
                    original_data = original_data then
                  some (.noEffectiveChange, fs)
                else
                  some (.success (file_path ++ ".patched"),
                    FS.write fs (file_path ++ ".patched")
                      (replaceFirst patch_info.target patch_info.replacement
                        original_data))
        else
          some (.versionMismatch, fs)
  else
    some (.invalidDescriptor, fs)

/- ### Helper lemmas about the matching primitives -/

/-- A prefix match of `t :: ts` at the head of `a :: rest` decomposes the
buffer as the pattern followed by `rest.drop ts.length`. -/
theorem head_match_decomp {t a : Nat} {ts rest : Bytes}
    (h : (t :: ts) <+: (a :: rest)) :
    a :: rest = (t :: ts) ++ rest.drop ts.length := by
  obtain ⟨u, hu⟩ := h
  have hcons : t = a ∧ ts ++ u = rest := by
    simpa using hu
  obtain ⟨ht, hts⟩ := hcons
  subst ht
  rw [← hts, List.drop_left]
  rfl

/-- If the greedy count finds at least one occurrence, the buffer splits
around a leftmost occurrence, and `replFirstGo` substitutes exactly
there. -/
theorem replFirstGo_decomp (t : Nat) (ts repl : Bytes) :
    ∀ s : Bytes, 0 < countK t ts 0 s →
      ∃ pre suf, s = pre ++ (t :: ts) ++ suf ∧
        replFirstGo t ts repl s = pre ++ repl ++ suf := by
  intro s
  induction s with
  | nil => intro h; simp [countK] at h
  | cons a rest ih =>
      intro h
      by_cases hp : (t :: ts) <+: (a :: rest)
      · refine ⟨[], rest.drop ts.length, ?_, ?_⟩
        · simpa using head_match_decomp hp
        · simp [replFirstGo, hp]
      · rw [countK, if_neg hp] at h
        obtain ⟨pre, suf, h1, h2⟩ := ih h
        refine ⟨a :: pre, suf, ?_, ?_⟩
        · simp [h1]
        · simp [replFirstGo, hp, h2]

/-- A decomposed occurrence is a contiguous-substring witness. -/
theorem sub_of_decomp {tgt pre suf s : Bytes}
    (h : s = pre ++ tgt ++ suf) : tgt <:+: s :=
  ⟨pre, suf, h.symm⟩

/- ### Helper lemmas about the filesystem model -/

theorem FS.read_write_self (fs : FS) (p : String) (d : Bytes) :
    FS.read (FS.write fs p d) p = some d := by
  simp [FS.read, FS.write, List.find?]

theorem FS.read_write_ne (fs : FS) (p q : String) (d : Bytes)
    (h : p ≠ q) : FS.read (FS.write fs p d) q = FS.read fs q := by
  have hb : (p == q) = false := beq_eq_false_iff_ne.mpr h
  simp [FS.read, FS.write, List.find?, hb]

/-- The derived output path never collides with the original path. -/
theorem patched_path_ne (p : String) : p ++ ".patched" ≠ p := by
  intro h
  have hlen := congrArg String.length h
  have h8 : String.length ".patched" = 8 := rfl
  rw [String.length_append, h8] at hlen
  omega

/-- Under the gates' hypotheses the target pattern cannot be empty: an
empty target forces an empty replacement (length parity), and the empty
byte string occurs in every buffer, so the already-patched gate would
have fired. -/
theorem target_ne_nil {patch : PatchInfo} {data : Bytes}
    (hlen : patch.target.length = patch.replacement.length)
    (hnp : ¬ patch.replacement <:+: data) : patch.target ≠ [] := by
  intro htn
  rw [htn] at hlen
  have hrn : patch.replacement = [] := by
    have := hlen.symm
    simpa [List.length_eq_zero] using this
  exact hnp (hrn ▸ ⟨[], data, by simp⟩)

/-- A positive occurrence count splits the buffer around the leftmost
occurrence, and `replaceFirst` substitutes the replacement exactly there. -/
theorem replaceFirst_decomp {target : Bytes} (repl : Bytes) {data : Bytes}
    (hne : target ≠ []) (hpos : 0 < countOcc target data) :
    ∃ pre suf, data = pre ++ target ++ suf ∧
      replaceFirst target repl data = pre ++ repl ++ suf := by
  match target, hne with
  | t :: ts, _ =>
    have := replFirstGo_decomp t ts repl data (by simpa [countOcc] using hpos)
    simpa [replaceFirst] using this

/-- If the substitution result were byte-identical to the input, the
replacement would equal the target, hence already occur in the buffer. -/
theorem replaceFirst_ne {patch : PatchInfo} {data : Bytes}
    (hlen : patch.target.length = patch.replacement.length)
    (hnp : ¬ patch.replacement <:+: data)
    (hpos : 0 < countOcc patch.target data) :
    replaceFirst patch.target patch.replacement data ≠ data := by
  obtain ⟨pre, suf, hdec, hrepl⟩ :=
    replaceFirst_decomp patch.replacement (target_ne_nil hlen hnp) hpos
  intro heq
  rw [hrepl] at heq
  rw [hdec] at heq
  have h1 : pre ++ (patch.replacement ++ suf) = pre ++ (patch.target ++ suf) := by
    simpa [List.append_assoc] using heq
  have h2 : patch.replacement ++ suf = patch.target ++ suf :=
    List.append_cancel_left h1
  have h3 : patch.replacement = patch.target :=
    List.append_cancel_right h2
  exact hnp (h3 ▸ sub_of_decomp hdec)

/-- Reduction of `apply_patch` on the success path: all gates pass, so the
function writes the substituted buffer to `<path>.patched`. -/
theorem apply_patch_success_eq
    (fs : FS) (path : String) (patch : PatchInfo) (data v : Bytes)
    (hlen : patch.target.length = patch.replacement.length)
    (hread : FS.read fs path = some data)
    (henc : encodeAscii patch.description = some v)
    (hver : v <:+: data)
    (hnp : ¬ patch.replacement <:+: data)
    (hone : countOcc patch.target data = 1) :
    apply_patch fs path patch =
      some (ApplyOutcome.success (path ++ ".patched"),
        FS.write fs (path ++ ".patched")
          (replaceFirst patch.target patch.replacement data)) := by
  have hneq : replaceFirst patch.target patch.replacement data ≠ data :=
    replaceFirst_ne hlen hnp (by omega)
  simp only [apply_patch, hread, henc, hone]
  rw [if_pos hlen, if_pos hver, if_neg hnp]
  simp only [Nat.one_ne_zero, if_false, gt_iff_lt, Nat.lt_irrefl, if_neg hneq]

/- ### Claims -/

/-- C5: a descriptor whose target and replacement lengths differ is
rejected as `InvalidDescriptor` in every filesystem state — including
states where the file does not exist — and the filesystem is returned
untouched: the gate is a property of the descriptor alone, decided
before any file is opened or read. -/
theorem claim_C5_invalid_descriptor
    (fs : FS) (path : String) (patch : PatchInfo)
    (hlen : patch.target.length ≠ patch.replacement.length) :
    apply_patch fs path patch = some (ApplyOutcome.invalidDescriptor, fs) := by
  unfold apply_patch
  rw [if_neg hlen]

/-- Witness for C5: a target of one byte against an empty replacement is
rejected on an empty filesystem (no file to read at all). -/
theorem claim_C5_invalid_descriptor_witness :
    apply_patch [] "f" ⟨[65], [0], []⟩ =
      some (ApplyOutcome.invalidDescriptor, []) :=
  claim_C5_invalid_descriptor [] "f" ⟨[65], [0], []⟩ (by decide)

/-- C9: every one of the nine `PATCH_CONFIG` entries has target and
replacement of exactly the same length — 17 bytes for the four U-2023
entries, 11 bytes for the five W-2024/X-2025 entries — so the
length-parity gate accepts every catalog descriptor. -/
theorem claim_C9_catalog_lengths :
    PATCH_CONFIG.map (fun p => (p.target.length, p.replacement.length)) =
      [(17, 17), (17, 17), (17, 17), (17, 17), (11, 11), (11, 11), (11, 11),
       (11, 11), (11, 11)] ∧
    PATCH_CONFIG.all
      (fun p => p.target.length == p.replacement.length) = true := by
  constructor
  · rfl
  · rfl

/-- C6: when the file is readable but its bytes do not contain the
ASCII encoding of the descriptor's label, `apply_patch` (with an
equal-length descriptor) returns `VersionMismatch`, leaving the
filesystem untouched — an outcome distinct from `PatternNotFound`. -/
theorem claim_C6_version_mismatch
    (fs : FS) (path : String) (patch : PatchInfo) (data v : Bytes)
    (hlen : patch.target.length = patch.replacement.length)
    (hread : FS.read fs path = some data)
    (henc : encodeAscii patch.description = some v)
    (hver : ¬ v <:+: data) :
    apply_patch fs path patch = some (ApplyOutcome.versionMismatch, fs) ∧
    ApplyOutcome.versionMismatch ≠ ApplyOutcome.patternNotFound := by
  refine ⟨?_, by simp⟩
  simp only [apply_patch, hread, henc]
  rw [if_pos hlen, if_neg hver]

/-- Witness for C6: the file holds only a zero byte, the label is "A". -/
theorem claim_C6_version_mismatch_witness :
    apply_patch [("f", [0])] "f" ⟨[65], [2], [3]⟩ =
      some (ApplyOutcome.versionMismatch, [("f", [0])]) ∧
    ApplyOutcome.versionMismatch ≠ ApplyOutcome.patternNotFound :=
  claim_C6_version_mismatch [("f", [0])] "f" ⟨[65], [2], [3]⟩ [0] [65]
    (by decide) (by decide) (by decide) (by decide)

/-- C3: once the length and version-marker gates pass, a buffer that
already contains the replacement pattern yields `AlreadyPatched` with the
filesystem untouched — with no hypothesis at all on the occurrence count
of the target, which shows this gate precedes the occurrence-count
gate. -/
theorem claim_C3_already_patched
    (fs : FS) (path : String) (patch : PatchInfo) (data v : Bytes)
    (hlen : patch.target.length = patch.replacement.length)
    (hread : FS.read fs path = some data)
    (henc : encodeAscii patch.description = some v)
    (hver : v <:+: data)
    (hap : patch.replacement <:+: data) :
    apply_patch fs path patch = some (ApplyOutcome.alreadyPatched, fs) := by
  simp only [apply_patch, hread, henc]
  rw [if_pos hlen, if_pos hver, if_pos hap]

/-- Witness for C3, at a buffer where the target still occurs twice: the
already-patched gate answers first. -/
theorem claim_C3_already_patched_witness :
    countOcc [0] [65, 0, 0, 1] = 2 ∧
    apply_patch [("f", [65, 0, 0, 1])] "f" ⟨[65], [0], [1]⟩ =
      some (ApplyOutcome.alreadyPatched, [("f", [65, 0, 0, 1])]) :=
  ⟨by decide,
   claim_C3_already_patched [("f", [65, 0, 0, 1])] "f" ⟨[65], [0], [1]⟩
     [65, 0, 0, 1] [65] (by decide) (by decide) (by decide) (by decide)
     (by decide)⟩

/-- C2 counterexample: the claim omits the already-patched gate. This
buffer contains the label "A" and two non-overlapping occurrences of the
target `[0]`, yet `apply_patch` returns `AlreadyPatched` — not
`AmbiguousMatch` — because the replacement `[1]` also occurs. -/
theorem claim_C2_counterexample :
    countOcc [0] [65, 0, 0, 1] = 2 ∧
    [65] <:+: ([65, 0, 0, 1] : Bytes) ∧
    encodeAscii [65] = some [65] ∧
    apply_patch [("g", [65, 0, 0, 1])] "g" ⟨[65], [0], [1]⟩ =
      some (ApplyOutcome.alreadyPatched, [("g", [65, 0, 0, 1])]) ∧
    ApplyOutcome.alreadyPatched ≠ ApplyOutcome.ambiguousMatch := by
  refine ⟨by decide, by decide, by decide, by decide, by simp⟩

/-- C2 (amended): with the extra precondition that the replacement
pattern does not already occur in the buffer, a readable buffer
containing the ASCII-encoded label and at least two non-overlapping
occurrences of the target makes `apply_patch` (with an equal-length
descriptor) return `AmbiguousMatch` with the filesystem untouched; there
is no fallback to patching the first occurrence. -/
theorem claim_C2_ambiguous_match
    (fs : FS) (path : String) (patch : PatchInfo) (data v : Bytes)
    (hlen : patch.target.length = patch.replacement.length)
    (hread : FS.read fs path = some data)
    (henc : encodeAscii patch.description = some v)
    (hver : v <:+: data)
    (hnp : ¬ patch.replacement <:+: data)
    (hmany : 2 ≤ countOcc patch.target data) :
    apply_patch fs path patch = some (ApplyOutcome.ambiguousMatch, fs) := by
  simp only [apply_patch, hread, henc]
  rw [if_pos hlen, if_pos hver, if_neg hnp, if_neg (by omega : ¬ countOcc patch.target data = 0),
    if_pos (by omega : countOcc patch.target data > 1)]

/-- Witness for C2 (amended): label "A", two occurrences of `[0]`, the
replacement `[9]` nowhere in the buffer. -/
theorem claim_C2_ambiguous_match_witness :
    apply_patch [("f", [65, 0, 0])] "f" ⟨[65], [0], [9]⟩ =
      some (ApplyOutcome.ambiguousMatch, [("f", [65, 0, 0])]) :=
  claim_C2_ambiguous_match [("f", [65, 0, 0])] "f" ⟨[65], [0], [9]⟩
    [65, 0, 0] [65] (by decide) (by decide) (by decide) (by decide)
    (by decide) (by decide)

/-- C1: for an equal-length descriptor and a readable buffer containing
the ASCII-encoded label, exactly one (non-overlapping) occurrence of the
target, and no occurrence of the replacement, `apply_patch` succeeds: it
writes `<path>.patched` holding the input with the replacement
substituted into the single matched range (identical bytes outside it),
of identical total length, while the original path still reads back the
unchanged input bytes. -/
theorem claim_C1_apply_success
    (fs : FS) (path : String) (patch : PatchInfo) (data v : Bytes)
    (hlen : patch.target.length = patch.replacement.length)
    (hread : FS.read fs path = some data)
    (henc : encodeAscii patch.description = some v)
    (hver : v <:+: data)
    (hnp : ¬ patch.replacement <:+: data)
    (hone : countOcc patch.target data = 1) :
    ∃ pre suf,
      data = pre ++ patch.target ++ suf ∧
      apply_patch fs path patch =
        some (ApplyOutcome.success (path ++ ".patched"),
          FS.write fs (path ++ ".patched") (pre ++ patch.replacement ++ suf)) ∧
      (pre ++ patch.replacement ++ suf).length = data.length ∧
      FS.read (FS.write fs (path ++ ".patched")
        (pre ++ patch.replacement ++ suf)) path = some data := by
  obtain ⟨pre, suf, hdec, hrepl⟩ :=
    @replaceFirst_decomp patch.target patch.replacement data
      (target_ne_nil hlen hnp) (by omega)
  refine ⟨pre, suf, hdec, ?_, ?_, ?_⟩
  · have h := apply_patch_success_eq fs path patch data v hlen hread henc hver hnp hone
    rw [hrepl] at h
    exact h
  · rw [hdec]
    simp [hlen]
  · rw [FS.read_write_ne _ _ _ _ (patched_path_ne path), hread]

/-- Witness for C1: file "f" holds label byte 65 then target byte 0; the
patch replaces the 0 by 1 in "f.patched" and leaves "f" intact. -/
theorem claim_C1_apply_success_witness :
    ∃ pre suf,
      ([65, 0] : Bytes) = pre ++ [0] ++ suf ∧
      apply_patch [("f", [65, 0])] "f" ⟨[65], [0], [1]⟩ =
        some (ApplyOutcome.success ("f" ++ ".patched"),
          FS.write [("f", [65, 0])] ("f" ++ ".patched") (pre ++ [1] ++ suf)) ∧
      (pre ++ [1] ++ suf).length = ([65, 0] : Bytes).length ∧
      FS.read (FS.write [("f", [65, 0])] ("f" ++ ".patched")
        (pre ++ [1] ++ suf)) "f" = some [65, 0] :=
  claim_C1_apply_success [("f", [65, 0])] "f" ⟨[65], [0], [1]⟩ [65, 0] [65]
    (by decide) (by decide) (by decide) (by decide) (by decide) (by decide)

/-- C8: every run that does not take the success branch returns the
filesystem exactly as it was (no file created or modified), and every
run — success included — leaves the bytes readable at the original path
unchanged: the original file is never written. -/
theorem claim_C8_failure_frame
    (fs fs2 : FS) (path : String) (patch : PatchInfo) (o : ApplyOutcome)
    (h : apply_patch fs path patch = some (o, fs2)) :
    (o.isSuccess = false → fs2 = fs) ∧
    FS.read fs2 path = FS.read fs path := by
  unfold apply_patch at h
  repeat' split at h
  all_goals
    first
    | exact Option.noConfusion h
    | (rw [Option.some.injEq, Prod.mk.injEq] at h
       obtain ⟨ho, hfs⟩ := h
       subst hfs
       subst ho
       exact ⟨fun _ => rfl, rfl⟩)
    | (rw [Option.some.injEq, Prod.mk.injEq] at h
       obtain ⟨ho, hfs⟩ := h
       subst hfs
       subst ho
       refine ⟨fun hx => by simp [ApplyOutcome.isSuccess] at hx, ?_⟩
       rw [FS.read_write_ne _ _ _ _ (patched_path_ne path)])

/-- Witness for C8 at a failing input: the file is absent, the outcome is
`FileUnreadable`, and the filesystem is untouched. -/
theorem claim_C8_failure_frame_witness :
    (ApplyOutcome.fileUnreadable.isSuccess = false → ([] : FS) = []) ∧
    FS.read ([] : FS) "f" = FS.read ([] : FS) "f" :=
  claim_C8_failure_frame [] [] "f" ⟨[65], [0], [1]⟩
    ApplyOutcome.fileUnreadable (by decide)

/-- C7: the `NoEffectiveChange` branch is dead code: no run of
`apply_patch` ever returns that outcome, because once the already-patched
and occurrence-count gates have passed, substituting the replacement for
the single occurrence of the target provably changes the buffer. -/
theorem claim_C7_no_effective_change_unreachable
    (fs fs2 : FS) (path : String) (patch : PatchInfo) (o : ApplyOutcome)
    (h : apply_patch fs path patch = some (o, fs2)) :
    o ≠ ApplyOutcome.noEffectiveChange := by
  intro ho
  subst ho
  by_cases hlen : patch.target.length = patch.replacement.length
  case neg => simp [apply_patch, hlen] at h
  case pos =>
  simp only [apply_patch] at h
  rw [if_pos hlen] at h
  cases hread : FS.read fs path with
  | none => simp only [hread] at h; simp at h
  | some data =>
  simp only [hread] at h
  cases henc : encodeAscii patch.description with
  | none => simp only [henc] at h; exact Option.noConfusion h
  | some v =>
  simp only [henc] at h
  by_cases hver : v <:+: data
  case neg => rw [if_neg hver] at h; simp at h
  case pos =>
  rw [if_pos hver] at h
  by_cases hnp : patch.replacement <:+: data
  case pos => rw [if_pos hnp] at h; simp at h
  case neg =>
  rw [if_neg hnp] at h
  by_cases hc0 : countOcc patch.target data = 0
  case pos => rw [if_pos hc0] at h; simp at h
  case neg =>
  rw [if_neg hc0] at h
  by_cases hc1 : countOcc patch.target data > 1
  case pos => rw [if_pos hc1] at h; simp at h
  case neg =>
  rw [if_neg hc1] at h
  by_cases heq : replaceFirst patch.target patch.replacement data = data
  case pos => exact replaceFirst_ne hlen hnp (by omega) heq
  case neg => rw [if_neg heq] at h; simp at h

/-- Witness for C7: a successful run, whose outcome is therefore not
`NoEffectiveChange`. -/
theorem claim_C7_no_effective_change_witness :
    ApplyOutcome.success "f.patched" ≠ ApplyOutcome.noEffectiveChange :=
  claim_C7_no_effective_change_unreachable [("f", [65, 0])]
    [("f.patched", [65, 1]), ("f", [65, 0])] "f" ⟨[65], [0], [1]⟩
    (ApplyOutcome.success "f.patched") (by decide)

/-- Inversion of the success branch: a `Success` outcome pins down every
gate: equal lengths, a readable buffer containing the label, replacement
absent, exactly one target occurrence, output path `<path>.patched`, and
the final filesystem a single write of the substituted buffer. -/
theorem apply_patch_success_inv
    (fs fs2 : FS) (path op : String) (patch : PatchInfo)
    (h : apply_patch fs path patch = some (ApplyOutcome.success op, fs2)) :
    op = path ++ ".patched" ∧
    patch.target.length = patch.replacement.length ∧
    ∃ data v, FS.read fs path = some data ∧
      encodeAscii patch.description = some v ∧
      v <:+: data ∧ ¬ patch.replacement <:+: data ∧
      countOcc patch.target data = 1 ∧
      fs2 = FS.write fs op
        (replaceFirst patch.target patch.replacement data) := by
  by_cases hlen : patch.target.length = patch.replacement.length
  case neg => simp [apply_patch, hlen] at h
  case pos =>
  simp only [apply_patch] at h
  rw [if_pos hlen] at h
  cases hread : FS.read fs path with
  | none => simp only [hread] at h; simp at h
  | some data =>
  simp only [hread] at h
  cases henc : encodeAscii patch.description with
  | none => simp only [henc] at h; exact Option.noConfusion h
  | some v =>
  simp only [henc] at h
  by_cases hver : v <:+: data
  case neg => rw [if_neg hver] at h; simp at h
  case pos =>
  rw [if_pos hver] at h
  by_cases hnp : patch.replacement <:+: data
  case pos => rw [if_pos hnp] at h; simp at h
  case neg =>
  rw [if_neg hnp] at h
  by_cases hc0 : countOcc patch.target data = 0
  case pos => rw [if_pos hc0] at h; simp at h
  case neg =>
  rw [if_neg hc0] at h
  by_cases hc1 : countOcc patch.target data > 1
  case pos => rw [if_pos hc1] at h; simp at h
  case neg =>
  rw [if_neg hc1] at h
  by_cases heq : replaceFirst patch.target patch.replacement data = data
  case pos => rw [if_pos heq] at h; simp at h
  case neg =>
  rw [if_neg heq] at h
  rw [Option.some.injEq, Prod.mk.injEq, ApplyOutcome.success.injEq] at h
  obtain ⟨hop, hfs⟩ := h
  subst hop
  refine ⟨rfl, hlen, data, v, rfl, rfl, hver, hnp, by omega, hfs.symm⟩

/-- C4 counterexample: round-trip idempotence fails when the version
label overlaps the replaced range. Label "A" (byte 65), target `[65]`,
replacement `[66]`, file "f" = `[65]`: the first run succeeds and writes
"f.patched" = `[66]`, but re-applying the descriptor to "f.patched"
returns `VersionMismatch` — not `AlreadyPatched` — because the
substitution destroyed the only copy of the label. -/
theorem claim_C4_counterexample :
    apply_patch [("f", [65])] "f" ⟨[65], [65], [66]⟩ =
      some (ApplyOutcome.success "f.patched",
        [("f.patched", [66]), ("f", [65])]) ∧
    apply_patch [("f.patched", [66]), ("f", [65])] "f.patched"
      ⟨[65], [65], [66]⟩ =
      some (ApplyOutcome.versionMismatch,
        [("f.patched", [66]), ("f", [65])]) ∧
    ApplyOutcome.versionMismatch ≠ ApplyOutcome.alreadyPatched := by
  refine ⟨by decide, by decide, by simp⟩

/-- C4 (amended): if `apply_patch` succeeds and the freshly produced
output file still contains the ASCII-encoded label, then applying the
same descriptor to that output file returns `AlreadyPatched` (and leaves
the filesystem unchanged). -/
theorem claim_C4_idempotent
    (fs fs2 : FS) (path op : String) (patch : PatchInfo) (v out : Bytes)
    (h : apply_patch fs path patch = some (ApplyOutcome.success op, fs2))
    (hout : FS.read fs2 op = some out)
    (henc : encodeAscii patch.description = some v)
    (hver : v <:+: out) :
    apply_patch fs2 op patch = some (ApplyOutcome.alreadyPatched, fs2) := by
  obtain ⟨hop, hlen, data, v', hread, henc', hv', hnp, hone, hfs2⟩ :=
    apply_patch_success_inv fs fs2 path op patch h
  obtain ⟨pre, suf, hdec, hrepl⟩ :=
    @replaceFirst_decomp patch.target patch.replacement data
      (target_ne_nil hlen hnp) (by omega)
  have hread2 : FS.read fs2 op =
      some (replaceFirst patch.target patch.replacement data) := by
    rw [hfs2, FS.read_write_self]
  have hout2 : out = replaceFirst patch.target patch.replacement data := by
    rw [hread2] at hout
    exact (Option.some.injEq _ _ ▸ hout).symm
  have hap : patch.replacement <:+: out := by
    rw [hout2, hrepl]
    exact ⟨pre, suf, by simp⟩
  exact claim_C3_already_patched fs2 op patch out v hlen hout henc hver hap

/-- Witness for C4 (amended): re-applying the descriptor to the output of
the successful run of the C1 witness scenario returns `AlreadyPatched`. -/
theorem claim_C4_idempotent_witness :
    apply_patch [("f.patched", [65, 1]), ("f", [65, 0])] "f.patched"
      ⟨[65], [0], [1]⟩ =
      some (ApplyOutcome.alreadyPatched,
        [("f.patched", [65, 1]), ("f", [65, 0])]) :=
  claim_C4_idempotent [("f", [65, 0])]
    [("f.patched", [65, 1]), ("f", [65, 0])] "f" "f.patched"
    ⟨[65], [0], [1]⟩ [65] [65, 1] (by decide) (by decide) (by decide)
    (by decide)

/-- C10: `apply_patch` is not total over arbitrary descriptors: with
equal-length patterns and a readable file, a label containing a code
point outside the ASCII range makes `version_string.encode('ascii')`
raise `UnicodeEncodeError`, which no handler in the function catches, so
the run ends abnormally (modelled as `none`) instead of producing any
outcome. -/
theorem claim_C10_non_ascii_label_aborts
    (fs : FS) (path : String) (patch : PatchInfo) (data : Bytes)
    (hlen : patch.target.length = patch.replacement.length)
    (hread : FS.read fs path = some data)
    (hbad : ∃ c ∈ patch.description, 128 ≤ c) :
    apply_patch fs path patch = none := by
  have henc : encodeAscii patch.description = none := by
    obtain ⟨c, hc, hc128⟩ := hbad
    unfold encodeAscii
    rw [if_neg]
    push_neg
    exact ⟨c, hc, by omega⟩
  simp only [apply_patch, hread, henc]
  rw [if_pos hlen]

/-- Witness for C10: label byte 200 is outside ASCII; the run aborts. -/
theorem claim_C10_non_ascii_label_aborts_witness :
    apply_patch [("f", [0])] "f" ⟨[200], [0], [1]⟩ = none :=
  claim_C10_non_ascii_label_aborts [("f", [0])] "f" ⟨[200], [0], [1]⟩ [0]
    (by decide) (by decide) ⟨200, by decide, by decide⟩
